import Mathlib

/-!
Verification of the MoneyLeaks statement-to-ledger pipeline
(`lib/transactions.ts` and the `app/api/analyze/route.ts` POST handler).

The TypeScript source is embedded shallowly: JS strings become `String`,
JS numbers become `ℚ` (amounts are decimal literals, modelled exactly),
JS objects used as rows become insertion-ordered association lists, and
the fallible row mapper returns `Option`.  JS truthiness of strings
(`a || b` falls through on the empty string, and an absent object key is
conflated with `""`, which is sound here because every key access in the
source occurs inside such an or-chain) is modelled by `jsOr`.
-/

namespace MoneyLeaks

/-- JS `a || b` on strings: `""` (and an absent key, also falsy) falls through. -/
def jsOr (a b : String) : String := if a = "" then b else a

/-- Is `needle` a prefix of `hay` (on character lists)? -/
def prefixAt : List Char → List Char → Bool
  | [], _ => true
  | _ :: _, [] => false
  | a :: as, b :: bs => a == b && prefixAt as bs

/-- Does `needle` occur as a contiguous run inside `hay`? -/
def hasSub (needle : List Char) : List Char → Bool
  | [] => prefixAt needle []
  | c :: cs => prefixAt needle (c :: cs) || hasSub needle cs

/-- JS `hay.includes(needle)` on strings. -/
def substrOf (needle hay : String) : Bool := hasSub needle.toList hay.toList

/-!
The following string primitives mirror the JS built-ins used by the source
(`toLowerCase`, `trim`, `split` on a separator or on whitespace,
`startsWith`, `slice`, `join`).  They are written as structural recursion
on the character list so that every definition evaluates by kernel
reduction.
-/

/-- JS `s.toLowerCase()` (ASCII, as all header/keyword text here is ASCII). -/
def toLowerS (s : String) : String := ⟨s.toList.map Char.toLower⟩

/-- JS `s.trim()`. -/
def trimS (s : String) : String :=
  ⟨((s.toList.dropWhile Char.isWhitespace).reverse.dropWhile Char.isWhitespace).reverse⟩

/-- Split a character list at every occurrence of the separator. -/
def splitCharList (sep : Char) : List Char → List (List Char)
  | [] => [[]]
  | c :: rest =>
      let r := splitCharList sep rest
      if c == sep then [] :: r
      else
        match r with
        | [] => [[c]]
        | h :: t => (c :: h) :: t

/-- JS `s.split(sep)` for a single-character separator (all separators used
by the source - newline, comma, dot - are single characters). -/
def splitOnC (sep : Char) (s : String) : List String :=
  (splitCharList sep s.toList).map String.mk

/-- Split a character list at every character satisfying the predicate. -/
def splitPredList (p : Char → Bool) : List Char → List (List Char)
  | [] => [[]]
  | c :: rest =>
      let r := splitPredList p rest
      if p c then [] :: r
      else
        match r with
        | [] => [[c]]
        | h :: t => (c :: h) :: t

/-- JS `line.split(/\s+/)` on an already-trimmed line is this split
followed by discarding empty pieces (done at the call site). -/
def splitWs (s : String) : List String :=
  (splitPredList Char.isWhitespace s.toList).map String.mk

/-- JS `s.startsWith(pre)`. -/
def startsWithS (s pre : String) : Bool := prefixAt pre.toList s.toList

/-- JS `s.slice(n)`. -/
def dropS (s : String) (n : Nat) : String := ⟨s.toList.drop n⟩

/-- JS `parts.join(" ")`. -/
def joinSpace (parts : List String) : String :=
  ⟨List.intercalate [' '] (parts.map String.toList)⟩

/-- The numeric value of a list of decimal digit characters. -/
def digitsToNat (l : List Char) : Nat := l.foldl (fun n c => 10 * n + (c.toNat - 48)) 0

/-- JS `Number(s)` restricted to strings over the alphabet `0-9`, `.`, `-`
(the only characters surviving the mapper's cleaning step); `none` is NaN.
`Number("") = 0`, a single leading minus is allowed, at most one dot, and
at least one digit must be present. -/
def jsNumber (s : String) : Option ℚ :=
  if s = "" then some 0 else
  let neg : Bool := startsWithS s "-"
  let rest : String := if neg then dropS s 1 else s
  if rest.toList.contains '-' then none else
  let sign : ℚ := if neg then -1 else 1
  match splitOnC '.' rest with
  | [intPart] =>
      if intPart ≠ "" ∧ intPart.toList.all Char.isDigit then
        some (sign * (digitsToNat intPart.toList : ℚ))
      else none
  | [intPart, fracPart] =>
      if (intPart ≠ "" ∨ fracPart ≠ "") ∧ intPart.toList.all Char.isDigit ∧
          fracPart.toList.all Char.isDigit then
        some (sign * ((digitsToNat intPart.toList : ℚ) +
          (digitsToNat fracPart.toList : ℚ) / 10 ^ fracPart.length))
      else none
  | _ => none

/-- A row: a JS object from header name to raw cell string, in insertion
order (statement headers are never integer-like keys, so JS property order
is insertion order). -/
abbrev Row := List (String × String)

/-- JS `row[k]`, with an absent key read as `""` (both are falsy in the
or-chains where every access occurs). -/
def rowGet : Row → String → String
  | [], _ => ""
  | (k', v') :: rest, k => if k' = k then v' else rowGet rest k

/-- JS `row[k] = v`: update in place if the key exists, else append. -/
def rowSet : Row → String → String → Row
  | [], k, v => [(k, v)]
  | (k', v') :: rest, k, v =>
      if k' = k then (k, v) :: rest else (k', v') :: rowSet rest k v

/-- JS `Object.values(row)`. -/
def rowValues (r : Row) : List String := r.map Prod.snd

inductive TransactionType
  | DEBIT
  | CREDIT
  deriving DecidableEq, Repr

inductive Category
  | INCOME
  | RENT
  | GROCERIES
  | FOOD_DELIVERY
  | SHOPPING
  | TRANSPORT
  | UTILITIES
  | SUBSCRIPTION
  | BANK_FEES
  | TRANSFER
  | OTHER
  deriving DecidableEq, Repr

/-- `interface Transaction` of `lib/transactions.ts`. -/
structure Transaction where
  date : String
  description : String
  amount : ℚ
  type : TransactionType
  category : Category
  raw : Row
  deriving DecidableEq, Repr

/-- The `byCategory` object literal of `computeSummary`: one field per
category of the closed set, in source order. -/
structure ByCategory where
  INCOME : ℚ
  RENT : ℚ
  GROCERIES : ℚ
  FOOD_DELIVERY : ℚ
  SHOPPING : ℚ
  TRANSPORT : ℚ
  UTILITIES : ℚ
  SUBSCRIPTION : ℚ
  BANK_FEES : ℚ
  TRANSFER : ℚ
  OTHER : ℚ
  deriving DecidableEq, Repr

def ByCategory.zero : ByCategory :=
  ⟨0, 0, 0, 0, 0, 0, 0, 0, 0, 0, 0⟩

/-- `byCategory[tx.category] += a`. -/
def ByCategory.bump (b : ByCategory) (c : Category) (a : ℚ) : ByCategory :=
  match c with
  | .INCOME => { b with INCOME := b.INCOME + a }
  | .RENT => { b with RENT := b.RENT + a }
  | .GROCERIES => { b with GROCERIES := b.GROCERIES + a }
  | .FOOD_DELIVERY => { b with FOOD_DELIVERY := b.FOOD_DELIVERY + a }
  | .SHOPPING => { b with SHOPPING := b.SHOPPING + a }
  | .TRANSPORT => { b with TRANSPORT := b.TRANSPORT + a }
  | .UTILITIES => { b with UTILITIES := b.UTILITIES + a }
  | .SUBSCRIPTION => { b with SUBSCRIPTION := b.SUBSCRIPTION + a }
  | .BANK_FEES => { b with BANK_FEES := b.BANK_FEES + a }
  | .TRANSFER => { b with TRANSFER := b.TRANSFER + a }
  | .OTHER => { b with OTHER := b.OTHER + a }

/-- The sum of all values of the `byCategory` object (JS
`Object.values(byCategory)` summed), fields in source order. -/
def ByCategory.total (b : ByCategory) : ℚ :=
  b.INCOME + b.RENT + b.GROCERIES + b.FOOD_DELIVERY + b.SHOPPING + b.TRANSPORT +
    b.UTILITIES + b.SUBSCRIPTION + b.BANK_FEES + b.TRANSFER + b.OTHER

structure Leaks where
  bankFees : ℚ
  subscriptions : ℚ
  foodDelivery : ℚ
  deriving DecidableEq, Repr

/-- `interface AnalysisSummary` of `lib/transactions.ts` (the shape
`computeSummary` actually returns). -/
structure AnalysisSummary where
  totalIncome : ℚ
  totalSpending : ℚ
  net : ℚ
  byCategory : ByCategory
  leaks : Leaks
  deriving DecidableEq, Repr

/-- `parseCsv`: split into trimmed non-blank lines, first line is the
comma-separated header list, every later line is zipped positionally. -/
def parseCsv (text : String) : List Row :=
  let lines := ((splitOnC '\n' text).map trimS).filter (fun l => l ≠ "")
  if lines.length < 2 then [] else
  let headers := (splitOnC ',' (lines.headD "")).map trimS
  lines.tail.map fun line =>
    let cols := splitOnC ',' line
    headers.enum.foldl (fun row p => rowSet row p.2 (trimS (cols.getD p.1 ""))) []

/-- The regex `^\d{2}\s\w{3},\s\d{4}$` of `parsePdfTextToRows`
(an exact 12-character pattern). -/
def dateCandidateOk (s : String) : Bool :=
  match s.toList with
  | [a, b, c, w1, w2, w3, cm, sp, y1, y2, y3, y4] =>
      a.isDigit && b.isDigit && c.isWhitespace &&
      (w1.isAlphanum || w1 == '_') && (w2.isAlphanum || w2 == '_') &&
      (w3.isAlphanum || w3 == '_') && cm == ',' && sp.isWhitespace &&
      y1.isDigit && y2.isDigit && y3.isDigit && y4.isDigit
  | _ => false

/-- One iteration of the `parsePdfTextToRows` loop: the row pushed for a
trimmed non-blank line, if any. -/
def pdfLineToRow (line : String) : Option Row :=
  let lower := toLowerS line
  if startsWithS lower "date" || startsWithS lower "transaction details" ||
      substrOf "cheque/reference" lower ||
      (substrOf "debit" lower && substrOf "credit" lower && substrOf "balance" lower) then
    none
  else
  let parts := (splitWs line).filter (fun p => p ≠ "")
  if parts.length < 5 then none else
  let dateCandidate := joinSpace (parts.take 3)
  if !dateCandidateOk dateCandidate then none else
  let numericIdx := (parts.enum.filter (fun p => p.2.toList.any Char.isDigit)).map Prod.fst
  if numericIdx.length < 2 then none else
  let balanceIdx := numericIdx.getD (numericIdx.length - 1) 0
  let amountIdx := numericIdx.getD (numericIdx.length - 2) 0
  let descriptionTokens := (parts.drop 3).take (amountIdx - 3)
  let description := jsOr (joinSpace descriptionTokens) "UNKNOWN TRANSACTION"
  let amountToken := parts.getD amountIdx ""
  let balanceToken := parts.getD balanceIdx ""
  let ty : TransactionType := if !(amountToken.toList.contains '-') then .CREDIT else .DEBIT
  some [("Date", dateCandidate), ("Description", description), ("Amount", amountToken),
        ("Balance", balanceToken),
        ("Credit/Debit", if ty = .CREDIT then "Credit" else "Debit")]

/-- `parsePdfTextToRows`: trimmed non-blank lines, each contributing at
most one row. -/
def parsePdfTextToRows (text : String) : List Row :=
  (((splitOnC '\n' text).map trimS).filter (fun l => l ≠ "")).filterMap pdfLineToRow

/-- The description alias chain of `mapRowToTransaction`. -/
def descriptionOf (row : Row) : String :=
  jsOr (jsOr (jsOr (jsOr (rowGet row "Description") (rowGet row "Transaction Details"))
    (rowGet row "Narration")) (rowGet row "details"))
    (jsOr ((rowValues row).getD 1 "") "")

/-- The amount alias chain of `mapRowToTransaction` (defaulting to `"0"`). -/
def amountSource (row : Row) : String :=
  jsOr (jsOr (jsOr (jsOr (jsOr (jsOr (rowGet row "Amount") (rowGet row "Withdrawal Amt."))
    (rowGet row "Debit")) (rowGet row "DEBIT")) (rowGet row "Deposit Amt."))
    (jsOr (rowGet row "Credit") (rowGet row "CREDIT")))
    (jsOr ((rowValues row).getD 2 "") "0")

/-- `amountStr.replace(/[^0-9.-]/g, "")`. -/
def cleanAmount (s : String) : String :=
  ⟨s.toList.filter (fun c => c.isDigit || c == '.' || c == '-')⟩

/-- The lower-cased explicit type field of `mapRowToTransaction`. -/
def typeFieldOf (row : Row) : String :=
  toLowerS (jsOr (jsOr (jsOr (jsOr (rowGet row "Credit/Debit") (rowGet row "Cr/Dr"))
    (rowGet row "Dr/Cr")) (rowGet row "Type")) "")

/-- The date alias chain of `mapRowToTransaction`, before the current-date
fallback. -/
def dateChain (row : Row) : String :=
  jsOr (jsOr (jsOr (rowGet row "Date") (rowGet row "DATE"))
    (rowGet row "Transaction Date")) (rowGet row "Value Date")

/-- `mapRowToTransaction`.  The JS `new Date().toISOString().slice(0, 10)`
fallback is the explicit `today` parameter. -/
def mapRowToTransaction (today : String) (row : Row) : Option Transaction :=
  (jsNumber (cleanAmount (amountSource row))).bind fun a =>
    if a = 0 then none
    else
      some { date := jsOr (dateChain row) today,
             description := descriptionOf row,
             amount := abs a,
             type :=
               if substrOf "credit" (typeFieldOf row) = true ∨
                   substrOf "cr" (typeFieldOf row) = true ∨ a < 0 then
                 .CREDIT
               else .DEBIT,
             category := .OTHER,
             raw := row }

def kwSubscription : List String :=
  ["netflix", "spotify", "youtube premium", "hotstar", "prime", "zee5",
   "subscription", "renewal"]

def kwFoodDelivery : List String :=
  ["swiggy", "zomato", "blinkit", "eats", "foodpanda"]

def kwGroceries : List String :=
  ["big bazaar", "d-mart", "dmart", "grofers", "grocery", "more supermarket",
   "reliance fresh"]

def kwShopping : List String :=
  ["amazon", "flipkart", "myntra", "ajio", "nykaa"]

def kwTransport : List String :=
  ["uber", "ola", "rapido", "metro", "bus", "auto", "cab"]

def kwUtilities : List String :=
  ["electricity", "water bill", "gas bill", "mobile bill", "postpaid",
   "prepaid", "wifi", "broadband", "jio", "airtel"]

def kwBankFees : List String :=
  ["charge", "fee", "penalty", "fine", "interest", "late fee", "bank charge",
   "annual fee"]

def kwTransfer : List String :=
  ["neft", "rtgs", "imps", "upi", "transfer", "to account", "from account"]

/-- A keyword-alternation regex test (all the source's category regexes are
alternations of literal substrings). -/
def anySubstr (kws : List String) (s : String) : Bool := kws.any (fun k => substrOf k s)

/-- `categorizeTransaction`: ordered rules, first match wins; the default
branch returns the input transaction unchanged. -/
def categorizeTransaction (tx : Transaction) : Transaction :=
  let desc := toLowerS tx.description
  if tx.type = .CREDIT then { tx with category := .INCOME }
  else if anySubstr kwSubscription desc then { tx with category := .SUBSCRIPTION }
  else if anySubstr kwFoodDelivery desc then { tx with category := .FOOD_DELIVERY }
  else if substrOf "rent" desc then { tx with category := .RENT }
  else if anySubstr kwGroceries desc then { tx with category := .GROCERIES }
  else if anySubstr kwShopping desc then { tx with category := .SHOPPING }
  else if anySubstr kwTransport desc then { tx with category := .TRANSPORT }
  else if anySubstr kwUtilities desc then { tx with category := .UTILITIES }
  else if anySubstr kwBankFees desc then { tx with category := .BANK_FEES }
  else if anySubstr kwTransfer desc then { tx with category := .TRANSFER }
  else tx

/-- One iteration of the `computeSummary` loop over
`(totalIncome, totalSpending, byCategory)`. -/
def summaryStep (acc : ℚ × ℚ × ByCategory) (tx : Transaction) : ℚ × ℚ × ByCategory :=
  if tx.type = .CREDIT then
    (acc.1 + tx.amount, acc.2.1, (acc.2.2).bump tx.category tx.amount)
  else
    (acc.1, acc.2.1 + tx.amount, (acc.2.2).bump tx.category tx.amount)

/-- `computeSummary`. -/
def computeSummary (txs : List Transaction) : AnalysisSummary :=
  let st := txs.foldl summaryStep (0, 0, ByCategory.zero)
  { totalIncome := st.1,
    totalSpending := st.2.1,
    net := st.1 - st.2.1,
    byCategory := st.2.2,
    leaks := { bankFees := st.2.2.BANK_FEES,
               subscriptions := st.2.2.SUBSCRIPTION,
               foodDelivery := st.2.2.FOOD_DELIVERY } }

/-- `rows.map(mapRowToTransaction).filter(nonNull).map(categorizeTransaction)`
of the POST handler. -/
def txsOf (today : String) (rows : List Row) : List Transaction :=
  (rows.filterMap (mapRowToTransaction today)).map categorizeTransaction

/-- The analysis result of the POST handler, after extraction. -/
inductive AnalyzeResult
  | failure (status : Nat)
  | success (txs : List Transaction) (summary : AnalysisSummary)
  deriving DecidableEq, Repr

/-- The POST handler after row extraction: a 400 failure ("Could not detect
any transactions in this file") when zero rows were extracted, else the
mapped, categorized transactions and their summary. -/
def analyzeRows (today : String) (rows : List Row) : AnalyzeResult :=
  if rows.length = 0 then .failure 400
  else .success (txsOf today rows) (computeSummary (txsOf today rows))

/-- The CSV branch of the POST handler. -/
def analyzeCsv (today : String) (text : String) : AnalyzeResult :=
  analyzeRows today (parseCsv text)

/-- The disjunction of the keyword rules 2-10 of `categorizeTransaction`
(everything below the CREDIT short-circuit), on the lower-cased description. -/
def matchesAnyRule (desc : String) : Bool :=
  anySubstr kwSubscription desc || anySubstr kwFoodDelivery desc ||
  substrOf "rent" desc || anySubstr kwGroceries desc || anySubstr kwShopping desc ||
  anySubstr kwTransport desc || anySubstr kwUtilities desc ||
  anySubstr kwBankFees desc || anySubstr kwTransfer desc

/-- A `{merchant, amount}` entry of `topMerchants`. -/
structure MerchantTotal where
  merchant : String
  amount : ℚ
  deriving DecidableEq, Repr

/-- Modelled from the spec: the backend transaction record consumed by the
top-merchants aggregator.  That aggregator lives in the FastAPI backend
(`moneyleaks-backend/main.py`), which is not under `src/`; per the data
model (section 3) its transaction carries an optional normalized
counterparty `merchant` in addition to the fields of section 3. -/
structure BTransaction where
  date : String
  description : String
  amount : ℚ
  type : TransactionType
  category : Category
  merchant : Option String
  deriving DecidableEq, Repr

/-- Descending-spend order on merchant totals. -/
def merGE (a b : MerchantTotal) : Prop := b.amount ≤ a.amount

instance : DecidableRel merGE := fun a b => inferInstanceAs (Decidable (b.amount ≤ a.amount))

instance : IsTotal MerchantTotal merGE := ⟨fun a b => le_total b.amount a.amount⟩

instance : IsTrans MerchantTotal merGE := ⟨fun _ _ _ h h' => le_trans h' h⟩

/-- Modelled from the spec: eligibility for `topMerchants` — DEBIT type,
category not TRANSFER, and a merchant identity present (section 4.5). -/
def eligibleTx (t : BTransaction) : Bool :=
  t.type == .DEBIT && t.category != .TRANSFER && t.merchant.isSome

/-- The distinct elements of a list in first-seen order (the spec's stable
grouping key order, section 4.5). -/
def firstSeen : List String → List String
  | [] => []
  | n :: rest => n :: firstSeen (rest.filter (fun m => !(m == n)))
termination_by l => l.length
decreasing_by simpa using Nat.lt_succ_of_le (List.length_filter_le _ _)

/-- Modelled from the spec: the eligible transactions of the top-merchants
grouping. -/
def eligibleOf (txs : List BTransaction) : List BTransaction := txs.filter eligibleTx

/-- Modelled from the spec: the grouped total paid to merchant `n`. -/
def merchantSum (txs : List BTransaction) (n : String) : ℚ :=
  (((eligibleOf txs).filter (fun t => t.merchant == some n)).map (fun t => t.amount)).sum

/-- Modelled from the spec: the merchant names of eligible transactions in
first-seen order. -/
def merchantNames (txs : List BTransaction) : List String :=
  firstSeen ((eligibleOf txs).filterMap (fun t => t.merchant))

/-- Modelled from the spec: one grouped entry per eligible merchant. -/
def merchantGroups (txs : List BTransaction) : List MerchantTotal :=
  (merchantNames txs).map (fun n => { merchant := n, amount := merchantSum txs n })

/-- Modelled from the spec: `topMerchants` — group DEBIT-type, non-TRANSFER
transactions by merchant, sum amounts, sort descending by total with a
stable sort, truncate to 10 (section 4.5).  The implementation is in the
FastAPI backend (`moneyleaks-backend/main.py`), absent from `src/`; only
its declared shape (`AnalysisSummary.topMerchants`) and its consumer
(`page.tsx`) are present there. -/
def topMerchants (txs : List BTransaction) : List MerchantTotal :=
  (List.insertionSort merGE (merchantGroups txs)).take 10

/-! Concrete inputs used by counterexamples and witnesses. -/

/-- A row whose explicit type column says `Debit` while the cleaned amount
is negative. -/
def c1Row : Row :=
  [("Type", "Debit"), ("Date", "01-10-2025"), ("Description", "X"), ("Amount", "-135.00")]

/-- The transaction the mapper produces from `c1Row`. -/
def c1Tx : Transaction :=
  { date := "01-10-2025", description := "X", amount := 135,
    type := .CREDIT, category := .OTHER, raw := c1Row }

/-- Scenario B's PDF-text line. -/
def c3Line : String :=
  "01 Oct, 2025 UPI/DEVRAJ VERMA/29xxxx/Sent using Paytm UPI-527431570952 -135.00 20,127.38"

/-- The row extracted from `c3Line`. -/
def c3Row : Row :=
  [("Date", "01 Oct, 2025"),
   ("Description", "UPI/DEVRAJ VERMA/29xxxx/Sent using Paytm UPI-527431570952"),
   ("Amount", "-135.00"), ("Balance", "20,127.38"), ("Credit/Debit", "Debit")]

/-- The transaction the mapper produces from `c3Row`. -/
def c3Tx : Transaction :=
  { date := "01 Oct, 2025",
    description := "UPI/DEVRAJ VERMA/29xxxx/Sent using Paytm UPI-527431570952",
    amount := 135, type := .CREDIT, category := .OTHER, raw := c3Row }

/-- A well-formed debit row (spec Scenario A). -/
def okRow : Row :=
  [("Date", "01-10-2025"), ("Description", "SWIGGY ORDER"), ("Amount", "450"), ("Type", "Debit")]

/-- The transaction the mapper produces from `okRow`. -/
def okTx : Transaction :=
  { date := "01-10-2025", description := "SWIGGY ORDER", amount := 450,
    type := .DEBIT, category := .OTHER, raw := okRow }

/-- A row whose amount field cleans to `0.00` (spec Scenario C). -/
def zeroRow : Row :=
  [("Date", "01-10-2025"), ("Description", "Z"), ("Amount", "0.00")]

/-- A CSV text whose single data row has amount `0`. -/
def c7Text : String := "Date,Description,Amount\n01-10-2025,X,0"

/-- The row `parseCsv` extracts from `c7Text`. -/
def c7Row : Row :=
  [("Date", "01-10-2025"), ("Description", "X"), ("Amount", "0")]

/-- A CREDIT transaction with a non-INCOME input category. -/
def c4Tx : Transaction :=
  { date := "d", description := "salary credited", amount := 100,
    type := .CREDIT, category := .OTHER, raw := [] }

/-- A DEBIT transaction whose description matches no keyword rule and which
carries a non-OTHER input category. -/
def c8Tx : Transaction :=
  { date := "d", description := "zzz", amount := 1,
    type := .DEBIT, category := .RENT, raw := [] }

/-- A DEBIT transaction whose description matches no keyword rule, with
input category OTHER (as the mapper always produces). -/
def c8wTx : Transaction :=
  { date := "d", description := "zzz", amount := 1,
    type := .DEBIT, category := .OTHER, raw := [] }

/-! ## Theorems -/

/-!
Evaluation lemmas for the concrete inputs.  String-level facts are settled
by `decide` (all string primitives reduce in the kernel); the `ℚ`
arithmetic of `jsNumber` and the mapper is settled by `norm_num`, since
the `Rat` operations are irreducible to the kernel.
-/

theorem num_neg135 : jsNumber "-135.00" = some (-135) := by
  have hsw : startsWithS "-135.00" "-" = true := by decide
  have hdrop : dropS "-135.00" 1 = "135.00" := by decide
  have hcont : ("135.00".toList.contains '-') = false := by decide
  have h1 : splitOnC '.' "135.00" = ["135", "00"] := by decide
  have d1 : digitsToNat "135".toList = 135 := by decide
  have d2 : digitsToNat "00".toList = 0 := by decide
  have hl : "00".length = 2 := rfl
  simp +decide only [jsNumber, hsw, hdrop, hcont, reduceIte]
  rw [h1]
  simp +decide only [d1, d2, hl, reduceIte]
  norm_num

theorem num_450 : jsNumber "450" = some 450 := by
  have hsw : startsWithS "450" "-" = false := by decide
  have hcont : ("450".toList.contains '-') = false := by decide
  have h1 : splitOnC '.' "450" = ["450"] := by decide
  have d1 : digitsToNat "450".toList = 450 := by decide
  simp +decide only [jsNumber, hsw, hcont, reduceIte]
  rw [h1]
  simp +decide only [d1, reduceIte]
  norm_num

theorem num_zero : jsNumber "0" = some 0 := by
  have hsw : startsWithS "0" "-" = false := by decide
  have hcont : ("0".toList.contains '-') = false := by decide
  have h1 : splitOnC '.' "0" = ["0"] := by decide
  have d1 : digitsToNat "0".toList = 0 := by decide
  simp +decide only [jsNumber, hsw, hcont, reduceIte]
  rw [h1]
  simp +decide only [d1, reduceIte]
  norm_num

theorem num_zero00 : jsNumber "0.00" = some 0 := by
  have hsw : startsWithS "0.00" "-" = false := by decide
  have hcont : ("0.00".toList.contains '-') = false := by decide
  have h1 : splitOnC '.' "0.00" = ["0", "00"] := by decide
  have d1 : digitsToNat "0".toList = 0 := by decide
  have d2 : digitsToNat "00".toList = 0 := by decide
  have hl : "00".length = 2 := rfl
  simp +decide only [jsNumber, hsw, hcont, reduceIte]
  rw [h1]
  simp +decide only [d1, d2, hl, reduceIte]
  norm_num

theorem map_c1Row (today : String) : mapRowToTransaction today c1Row = some c1Tx := by
  have hc : cleanAmount (amountSource c1Row) = "-135.00" := by decide
  have h1 : substrOf "credit" (typeFieldOf c1Row) = false := by decide
  have h2 : substrOf "cr" (typeFieldOf c1Row) = false := by decide
  have hd : dateChain c1Row = "01-10-2025" := by decide
  have hjs : jsOr "01-10-2025" today = "01-10-2025" := if_neg (by decide)
  have hdesc : descriptionOf c1Row = "X" := by decide
  have habs : |(-135 : ℚ)| = 135 := by norm_num
  unfold mapRowToTransaction
  rw [hc, num_neg135, hd, hjs]
  simp only [h1, h2, hdesc]
  norm_num +decide [c1Tx, habs]

theorem map_okRow (today : String) : mapRowToTransaction today okRow = some okTx := by
  have hc : cleanAmount (amountSource okRow) = "450" := by decide
  have h1 : substrOf "credit" (typeFieldOf okRow) = false := by decide
  have h2 : substrOf "cr" (typeFieldOf okRow) = false := by decide
  have hd : dateChain okRow = "01-10-2025" := by decide
  have hjs : jsOr "01-10-2025" today = "01-10-2025" := if_neg (by decide)
  have hdesc : descriptionOf okRow = "SWIGGY ORDER" := by decide
  have habs : |(450 : ℚ)| = 450 := by norm_num
  unfold mapRowToTransaction
  rw [hc, num_450, hd, hjs]
  simp only [h1, h2, hdesc]
  norm_num +decide [okTx, habs]

theorem map_c3Row (today : String) : mapRowToTransaction today c3Row = some c3Tx := by
  have hc : cleanAmount (amountSource c3Row) = "-135.00" := by decide
  have h1 : substrOf "credit" (typeFieldOf c3Row) = false := by decide
  have h2 : substrOf "cr" (typeFieldOf c3Row) = false := by decide
  have hd : dateChain c3Row = "01 Oct, 2025" := by decide
  have hjs : jsOr "01 Oct, 2025" today = "01 Oct, 2025" := if_neg (by decide)
  have hdesc :
      descriptionOf c3Row = "UPI/DEVRAJ VERMA/29xxxx/Sent using Paytm UPI-527431570952" := by
    decide
  have habs : |(-135 : ℚ)| = 135 := by norm_num
  unfold mapRowToTransaction
  rw [hc, num_neg135, hd, hjs]
  simp only [h1, h2, hdesc]
  norm_num +decide [c3Tx, habs]

theorem map_c7Row (today : String) : mapRowToTransaction today c7Row = none := by
  have hc : cleanAmount (amountSource c7Row) = "0" := by decide
  unfold mapRowToTransaction
  rw [hc, num_zero]
  norm_num

theorem map_zeroRow (today : String) : mapRowToTransaction today zeroRow = none := by
  have hc : cleanAmount (amountSource zeroRow) = "0.00" := by decide
  unfold mapRowToTransaction
  rw [hc, num_zero00]
  norm_num

theorem bump_total (b : ByCategory) (c : Category) (a : ℚ) :
    (b.bump c a).total = b.total + a := by
  cases c <;> simp [ByCategory.bump, ByCategory.total] <;> ring

theorem summary_fold_inv (txs : List Transaction) :
    ∀ acc : ℚ × ℚ × ByCategory,
      ((txs.foldl summaryStep acc).2.2).total -
          ((txs.foldl summaryStep acc).1 + (txs.foldl summaryStep acc).2.1)
        = (acc.2.2).total - (acc.1 + acc.2.1) := by
  induction txs with
  | nil => intro acc; rfl
  | cons tx rest ih =>
    intro acc
    rw [List.foldl_cons, ih]
    by_cases h : tx.type = .CREDIT <;> simp [summaryStep, h, bump_total] <;> ring

/-- C5: for every list of categorized transactions, the summary satisfies
`sum(byCategory.values()) = totalIncome + totalSpending` and
`net = totalIncome - totalSpending`. -/
theorem summary_partitions (txs : List Transaction) :
    (computeSummary txs).byCategory.total
        = (computeSummary txs).totalIncome + (computeSummary txs).totalSpending ∧
      (computeSummary txs).net
        = (computeSummary txs).totalIncome - (computeSummary txs).totalSpending := by
  have h := summary_fold_inv txs (0, 0, ByCategory.zero)
  have hz : ByCategory.total ByCategory.zero = 0 := by
    simp [ByCategory.total, ByCategory.zero]
  constructor
  · simp only [computeSummary]
    simp only [hz] at h
    linarith
  · rfl

/-- C5 witness: the invariant evaluated on a concrete two-transaction list. -/
theorem summary_partitions_witness :
    (computeSummary [c4Tx, c8Tx]).byCategory.total
        = (computeSummary [c4Tx, c8Tx]).totalIncome +
            (computeSummary [c4Tx, c8Tx]).totalSpending ∧
      (computeSummary [c4Tx, c8Tx]).net
        = (computeSummary [c4Tx, c8Tx]).totalIncome -
            (computeSummary [c4Tx, c8Tx]).totalSpending :=
  summary_partitions [c4Tx, c8Tx]

/-- C4: for every transaction of type CREDIT, `categorizeTransaction`
yields category INCOME, unconditionally overriding every keyword rule. -/
theorem credit_always_income (tx : Transaction) (h : tx.type = .CREDIT) :
    (categorizeTransaction tx).category = .INCOME := by
  simp [categorizeTransaction, h]

/-- C4 witness: a concrete CREDIT transaction is categorized INCOME. -/
theorem credit_always_income_witness :
    c4Tx.type = .CREDIT ∧ (categorizeTransaction c4Tx).category = .INCOME :=
  ⟨rfl, credit_always_income c4Tx rfl⟩

/-- C8 counterexample: a DEBIT transaction matching no keyword rule but
carrying input category RENT keeps category RENT — the default branch does
not set OTHER, contradicting "the returned transaction's category is OTHER,
regardless of the category carried by the input transaction". -/
theorem categorize_default_keeps_category :
    c8Tx.type = .DEBIT ∧ matchesAnyRule (toLowerS c8Tx.description) = false ∧
      (categorizeTransaction c8Tx).category = .RENT ∧
      (categorizeTransaction c8Tx).category ≠ .OTHER := by decide

/-- C8 amended: `categorizeTransaction` is total and first-match-wins, and
for every DEBIT transaction whose description matches none of the keyword
rules 2-10 it returns the input transaction unchanged, so the output
category equals the category carried by the input (which the mapper always
sets to OTHER). -/
theorem categorize_default_returns_input (tx : Transaction) (h1 : tx.type = .DEBIT)
    (h2 : matchesAnyRule (toLowerS tx.description) = false) :
    categorizeTransaction tx = tx := by
  simp only [matchesAnyRule, Bool.or_eq_false_iff] at h2
  obtain ⟨⟨⟨⟨⟨⟨⟨⟨ha, hb⟩, hc⟩, hd⟩, he⟩, hf⟩, hg⟩, hh⟩, hi⟩ := h2
  simp [categorizeTransaction, h1, ha, hb, hc, hd, he, hf, hg, hh, hi]

/-- C8 amended witness: a concrete unmatched DEBIT transaction with input
category OTHER is returned unchanged. -/
theorem categorize_default_returns_input_witness :
    c8wTx.type = .DEBIT ∧ matchesAnyRule (toLowerS c8wTx.description) = false ∧
      categorizeTransaction c8wTx = c8wTx :=
  ⟨rfl, by decide, categorize_default_returns_input c8wTx rfl (by decide)⟩

/-- C6: `mapRowToTransaction` rejects a row exactly when the cleaned amount
string parses to zero or is not a number, and a rejected row is dropped
from the output sequence without aborting the rest of the batch. -/
theorem mapper_rejection (today : String) (row : Row) (pre post : List Row) :
    (mapRowToTransaction today row = none ↔
      jsNumber (cleanAmount (amountSource row)) = none ∨
        jsNumber (cleanAmount (amountSource row)) = some 0) ∧
    (mapRowToTransaction today row = none →
      txsOf today (pre ++ row :: post) = txsOf today pre ++ txsOf today post) := by
  constructor
  · cases hj : jsNumber (cleanAmount (amountSource row)) with
    | none => simp [mapRowToTransaction, hj]
    | some a => by_cases ha : a = 0 <;> simp [mapRowToTransaction, hj, ha]
  · intro h
    simp [txsOf, List.filterMap_append, List.filterMap_cons, h]

/-- C6 witness: a concrete row cleaning to `0.00` is rejected and dropped
between two well-formed rows. -/
theorem mapper_rejection_witness :
    (mapRowToTransaction "2026-01-01" zeroRow = none ↔
      jsNumber (cleanAmount (amountSource zeroRow)) = none ∨
        jsNumber (cleanAmount (amountSource zeroRow)) = some 0) ∧
    (mapRowToTransaction "2026-01-01" zeroRow = none →
      txsOf "2026-01-01" ([okRow] ++ zeroRow :: [okRow])
        = txsOf "2026-01-01" [okRow] ++ txsOf "2026-01-01" [okRow]) :=
  mapper_rejection "2026-01-01" zeroRow [okRow] [okRow]

/-- C10: every transaction returned by `mapRowToTransaction` has amount
strictly greater than zero. -/
theorem mapper_amount_pos (today : String) (row : Row) (tx : Transaction)
    (h : mapRowToTransaction today row = some tx) : 0 < tx.amount := by
  cases hj : jsNumber (cleanAmount (amountSource row)) with
  | none => simp [mapRowToTransaction, hj] at h
  | some a =>
    simp only [mapRowToTransaction, hj, Option.some_bind] at h
    split_ifs at h with ha hc
    · cases h
      exact abs_pos.mpr ha
    · cases h
      exact abs_pos.mpr ha

/-- C10 witness: the mapper's output on a concrete row has positive amount. -/
theorem mapper_amount_pos_witness :
    mapRowToTransaction "2026-01-01" okRow = some okTx ∧ 0 < okTx.amount :=
  ⟨map_okRow "2026-01-01",
    mapper_amount_pos "2026-01-01" okRow okTx (map_okRow "2026-01-01")⟩

/-- C7 counterexample: a CSV whose single data row has amount `0` extracts
one row, every row fails mapping, and the pipeline still answers with a
successful empty summary — not a "no transactions detected" failure. -/
theorem analyze_empty_success :
    (parseCsv c7Text).length = 1 ∧
      analyzeCsv "2026-01-01" c7Text = .success [] (computeSummary []) := by
  have hp : parseCsv c7Text = [c7Row] := by decide
  have htx : txsOf "2026-01-01" [c7Row] = [] := by
    unfold txsOf
    rw [List.filterMap_cons, map_c7Row]
    rfl
  constructor
  · rw [hp]; rfl
  · unfold analyzeCsv analyzeRows
    rw [hp]
    norm_num [htx]

/-- C7 amended: the analyze pipeline reports the "no transactions detected"
failure exactly when row extraction yields zero rows; when rows are
extracted but every row is rejected by the mapper it returns a successful
response with an empty transaction list and an all-zero summary. -/
theorem analyze_failure_iff_no_rows (today text : String) :
    analyzeCsv today text = .failure 400 ↔ parseCsv text = [] := by
  unfold analyzeCsv analyzeRows
  by_cases h : (parseCsv text).length = 0
  · simp [h, List.length_eq_zero.mp h]
  · have hne : parseCsv text ≠ [] := by
      intro he; exact h (by simp [he])
    simp [h, hne]

/-- C1 counterexample: a row with an explicit type column `Debit` (which
does not indicate credit) and a cleaned amount parsing to `-135` is mapped
to type CREDIT, not DEBIT. -/
theorem explicit_type_not_precedent :
    rowGet c1Row "Type" = "Debit" ∧
      substrOf "credit" (typeFieldOf c1Row) = false ∧
      substrOf "cr" (typeFieldOf c1Row) = false ∧
      jsNumber (cleanAmount (amountSource c1Row)) = some (-135) ∧
      mapRowToTransaction "2026-01-01" c1Row = some c1Tx ∧
      c1Tx.type = .CREDIT := by
  have hc : cleanAmount (amountSource c1Row) = "-135.00" := by decide
  exact ⟨by decide, by decide, by decide, by rw [hc]; exact num_neg135,
    map_c1Row "2026-01-01", rfl⟩

/-- C1 amended: `mapRowToTransaction` maps a row to type CREDIT exactly
when the lower-cased explicit type field contains "credit" or "cr" OR the
cleaned amount parses negative (a disjunction, not a precedence): an
explicit non-credit type column does not prevent a negative amount from
yielding CREDIT. -/
theorem mapper_type_rule (today : String) (row : Row) (tx : Transaction) (a : ℚ)
    (h : mapRowToTransaction today row = some tx)
    (hj : jsNumber (cleanAmount (amountSource row)) = some a) :
    tx.type = .CREDIT ↔
      substrOf "credit" (typeFieldOf row) = true ∨
        substrOf "cr" (typeFieldOf row) = true ∨ a < 0 := by
  simp only [mapRowToTransaction, hj, Option.some_bind] at h
  split_ifs at h with ha hc
  · cases h
    simp [hc]
  · cases h
    simp [hc]

/-- C1 amended witness: the rule evaluated on the concrete `Debit`-typed
negative-amount row. -/
theorem mapper_type_rule_witness :
    mapRowToTransaction "2026-01-01" c1Row = some c1Tx ∧
      jsNumber (cleanAmount (amountSource c1Row)) = some (-135) ∧
      (c1Tx.type = .CREDIT ↔
        substrOf "credit" (typeFieldOf c1Row) = true ∨
          substrOf "cr" (typeFieldOf c1Row) = true ∨ (-135 : ℚ) < 0) := by
  have hj : jsNumber (cleanAmount (amountSource c1Row)) = some (-135) := by
    have hc : cleanAmount (amountSource c1Row) = "-135.00" := by decide
    rw [hc]; exact num_neg135
  exact ⟨map_c1Row "2026-01-01", hj,
    mapper_type_rule "2026-01-01" c1Row c1Tx (-135) (map_c1Row "2026-01-01") hj⟩

/-- C3 counterexample: on Scenario B's PDF line the pipeline produces
exactly one transaction and its type is CREDIT, not the claimed DEBIT. -/
theorem pdf_line_maps_to_credit :
    ((parsePdfTextToRows c3Line).filterMap (mapRowToTransaction "2026-01-01")).map
        Transaction.type = [TransactionType.CREDIT] := by
  have hp : parsePdfTextToRows c3Line = [c3Row] := by decide
  rw [hp, List.filterMap_cons, map_c3Row]
  rfl

/-- C3 amended: on Scenario B's PDF line the pipeline produces exactly one
transaction whose description contains "DEVRAJ VERMA", whose amount is
135, and whose type is CREDIT (the mapper's negative-amount rule overrides
the extractor's `Debit` marking); the produced transaction record carries
no merchant/counterparty field — counterparty normalization is not part of
this pipeline. -/
theorem pdf_line_pipeline (today : String) :
    (parsePdfTextToRows c3Line).filterMap (mapRowToTransaction today) = [c3Tx] ∧
      substrOf "DEVRAJ VERMA" c3Tx.description = true ∧
      c3Tx.amount = 135 ∧ c3Tx.type = .CREDIT := by
  have hp : parsePdfTextToRows c3Line = [c3Row] := by decide
  refine ⟨?_, by decide, rfl, rfl⟩
  rw [hp, List.filterMap_cons, map_c3Row]
  rfl

theorem mapRow_today_irrelevant (row : Row) (h : dateChain row ≠ "") (t1 t2 : String) :
    mapRowToTransaction t1 row = mapRowToTransaction t2 row := by
  unfold mapRowToTransaction
  cases jsNumber (cleanAmount (amountSource row)) with
  | none => rfl
  | some a => simp [jsOr, h]

/-- C9: the pipeline after extraction is deterministic; its only time
dependence is the documented current-date fallback, so on row lists in
which every row carries a (nonempty) date column, two runs with different
processing dates agree exactly. -/
theorem pipeline_deterministic (t1 t2 : String) (rows : List Row)
    (h : ∀ row ∈ rows, dateChain row ≠ "") :
    analyzeRows t1 rows = analyzeRows t2 rows := by
  have htx : txsOf t1 rows = txsOf t2 rows := by
    unfold txsOf
    exact congrArg (List.map categorizeTransaction)
      (List.filterMap_congr fun row hr => mapRow_today_irrelevant row (h row hr) t1 t2)
  unfold analyzeRows
  rw [htx]

/-- C9 witness: two runs with different processing dates on a concrete
dated row list agree. -/
theorem pipeline_deterministic_witness :
    analyzeRows "2025-01-01" [okRow] = analyzeRows "2026-02-02" [okRow] :=
  pipeline_deterministic "2025-01-01" "2026-02-02" [okRow] (by decide)

theorem mem_firstSeen : ∀ (l : List String) (m : String), m ∈ firstSeen l → m ∈ l := by
  intro l
  induction l using firstSeen.induct with
  | case1 =>
    intro m h
    simp [firstSeen] at h
  | case2 n rest ih =>
    intro m h
    rw [firstSeen] at h
    rcases List.mem_cons.mp h with h1 | h2
    · exact h1 ▸ List.mem_cons_self _ _
    · exact List.mem_cons_of_mem _ (List.mem_of_mem_filter (ih m h2))

theorem firstSeen_nodup : ∀ l : List String, (firstSeen l).Nodup := by
  intro l
  induction l using firstSeen.induct with
  | case1 => simp [firstSeen]
  | case2 n rest ih =>
    rw [firstSeen]
    refine List.nodup_cons.mpr ⟨fun hmem => ?_, ih⟩
    have := List.mem_filter.mp (mem_firstSeen _ _ hmem)
    simp at this

theorem map_fst_groups (txs : List BTransaction) :
    (merchantGroups txs).map (fun e => e.merchant) = merchantNames txs := by
  unfold merchantGroups
  generalize merchantNames txs = l
  induction l with
  | nil => rfl
  | cons a l ih => simp [ih]

/-- C2: the (spec-modelled) top-merchants aggregation groups DEBIT-type,
non-TRANSFER transactions by merchant, each entry's amount being the sum
of the amounts of that merchant's eligible transactions; the result is
sorted descending by amount and has length at most 10; every listed
merchant comes from a DEBIT, non-TRANSFER transaction, so CREDIT-type and
TRANSFER-category transactions are excluded. -/
theorem topMerchants_spec (txs : List BTransaction) :
    (topMerchants txs).length ≤ 10 ∧
    List.Sorted merGE (topMerchants txs) ∧
    ((topMerchants txs).map (fun e => e.merchant)).Nodup ∧
    ∀ e ∈ topMerchants txs,
      e.amount = (((txs.filter eligibleTx).filter
          (fun t => t.merchant == some e.merchant)).map (fun t => t.amount)).sum ∧
      ∃ t ∈ txs, eligibleTx t = true ∧ t.merchant = some e.merchant := by
  refine ⟨?_, ?_, ?_, ?_⟩
  · rw [topMerchants, List.length_take]
    exact min_le_left _ _
  · exact List.Pairwise.sublist (List.take_sublist _ _)
      (List.sorted_insertionSort merGE (merchantGroups txs))
  · have h1 : (merchantNames txs).Nodup := firstSeen_nodup _
    have hperm : List.Perm
        ((List.insertionSort merGE (merchantGroups txs)).map (fun e => e.merchant))
        ((merchantGroups txs).map (fun e => e.merchant)) :=
      (List.perm_insertionSort merGE (merchantGroups txs)).map _
    have h3 : ((List.insertionSort merGE (merchantGroups txs)).map
        (fun e => e.merchant)).Nodup :=
      hperm.nodup_iff.mpr (by rw [map_fst_groups]; exact h1)
    exact List.Nodup.sublist ((List.take_sublist _ _).map _) h3
  · intro e he
    have he1 : e ∈ List.insertionSort merGE (merchantGroups txs) :=
      List.mem_of_mem_take he
    have he2 : e ∈ merchantGroups txs :=
      (List.perm_insertionSort merGE (merchantGroups txs)).mem_iff.mp he1
    obtain ⟨n, hn, rfl⟩ := List.mem_map.mp he2
    refine ⟨rfl, ?_⟩
    have hn' : n ∈ (eligibleOf txs).filterMap (fun t => t.merchant) :=
      mem_firstSeen _ _ hn
    obtain ⟨t, ht, hmt⟩ := List.mem_filterMap.mp hn'
    have ht' := List.mem_filter.mp ht
    exact ⟨t, ht'.1, ht'.2, hmt⟩

end MoneyLeaks
